import Mathlib

/-!
Verification of the Halo-5-Data-Importer binary decoding layer.

Shallow embedding of the decoding code in
`blender_addons/Halo-5-Data-Importer/material_importer.py` and
`blender_addons/Halo-5-Data-Importer/light_importer.py`.

A file is a `List Nat` of byte values.  The Python file object is modelled by
explicit positions: `file.read` at position `pos` succeeds exactly when the
requested bytes fit inside the buffer (Python's `struct.unpack` raises when
`read` returns fewer bytes than requested), while relative `seek`s succeed at
any non-negative absolute position, even past the end of the buffer (CPython
allows seeking past EOF).  Fallible operations return `Option`.

32-bit floats are never interpreted numerically by the decoder (they are only
carried through to the output), so every `f32` field is kept as its raw
little-endian 32-bit pattern, a `Nat` below `2^32`.
-/

/-- Little-endian u32 read: `struct.unpack('<I', file.read(4))`.  Succeeds only
when all four bytes are inside the buffer. -/
def readU32v (data : List Nat) (pos : Nat) : Option Nat :=
  match data[pos]?, data[pos+1]?, data[pos+2]?, data[pos+3]? with
  | some b0, some b1, some b2, some b3 =>
      some (b0 + b1 * 256 + b2 * 65536 + b3 * 16777216)
  | _, _, _, _ => none

/-- A read of `n` bytes whose value the decoder discards (e.g. the 4-float and
9-float runs of the bitmap record).  Models only the success condition. -/
def readChk (data : List Nat) (pos n : Nat) : Option Unit :=
  if pos + n ≤ data.length then some () else none

/-- Two consecutive u32 reads (`struct.unpack('ff', file.read(8))` with the
values kept as raw 32-bit patterns). -/
def readU32x2 (data : List Nat) (pos : Nat) : Option (Nat × Nat) := do
  let a ← readU32v data pos
  let b ← readU32v data (pos + 4)
  pure (a, b)

/-- Three consecutive u32 reads (`struct.unpack('fff', file.read(12))`). -/
def readU32x3 (data : List Nat) (pos : Nat) : Option (Nat × Nat × Nat) := do
  let a ← readU32v data pos
  let b ← readU32v data (pos + 4)
  let c ← readU32v data (pos + 8)
  pure (a, b, c)

/-- Four consecutive u32 reads (`struct.unpack('ffff', file.read(16))`). -/
def readU32x4 (data : List Nat) (pos : Nat) : Option (Nat × Nat × Nat × Nat) := do
  let a ← readU32v data pos
  let b ← readU32v data (pos + 4)
  let c ← readU32v data (pos + 8)
  let d ← readU32v data (pos + 12)
  pure (a, b, c, d)

/-- `[read_u32(f) for _ in range(n)]` starting at `pos`. -/
def readU32list (data : List Nat) (pos : Nat) : Nat → Option (List Nat)
  | 0 => some []
  | n + 1 => do
      let v ← readU32v data pos
      let rest ← readU32list data (pos + 4) n
      pure (v :: rest)

/-- `file.seek(delta, 1)`: relative seek.  CPython raises `OSError` only when
the resulting absolute position would be negative; seeking past EOF is fine. -/
def seekRel (pos : Nat) (delta : Int) : Option Nat :=
  if (pos : Int) + delta < 0 then none else some ((pos : Int) + delta).toNat

/-! ## MurmurHash3 x86 32-bit, seed 0.

Modelled from the spec: the repository calls the external `mmh3` library
(`mmh3.hash(string, signed=False)`), whose source is not part of the
repository; §4.2 of the spec identifies it as the public MurmurHash3 x86
32-bit algorithm with seed 0, bit-for-bit identical to the upstream reference
implementation, applied to the UTF-8 bytes of the string. -/

/-- Truncate to 32 bits. -/
def m32 (x : Nat) : Nat := x % 4294967296

/-- 32-bit left rotation, for `x < 2^32` and `0 < r < 32`. -/
def rotl32 (x r : Nat) : Nat := (m32 (x <<< r)) ||| (x >>> (32 - r))

/-- The per-chunk mixing of MurmurHash3 x86-32. -/
def mmixK (k : Nat) : Nat :=
  m32 (rotl32 (m32 (k * 0xcc9e2d51)) 15 * 0x1b873593)

/-- Main body: consume 4-byte little-endian chunks, return the running state
and the remaining tail of fewer than 4 bytes. -/
def murmurBody (h : Nat) : List Nat → Nat × List Nat
  | b0 :: b1 :: b2 :: b3 :: rest =>
      murmurBody
        (m32 (rotl32 (h ^^^ mmixK (b0 + b1 * 256 + b2 * 65536 + b3 * 16777216)) 13 * 5
          + 0xe6546b64))
        rest
  | tail => (h, tail)

/-- Little-endian accumulation of the 0–3 tail bytes. -/
def murmurTailK : List Nat → Nat
  | [t0] => t0
  | [t0, t1] => t0 + t1 * 256
  | [t0, t1, t2] => t0 + t1 * 256 + t2 * 65536
  | _ => 0

/-- Finalization mix of MurmurHash3 x86-32. -/
def fmix32 (h : Nat) : Nat :=
  let h1 := h ^^^ (h >>> 16)
  let h2 := m32 (h1 * 0x85ebca6b)
  let h3 := h2 ^^^ (h2 >>> 13)
  let h4 := m32 (h3 * 0xc2b2ae35)
  h4 ^^^ (h4 >>> 16)

/-- MurmurHash3 x86-32 over a byte list. -/
def murmur3_32 (bytes : List Nat) (seed : Nat) : Nat :=
  let body := murmurBody (m32 seed) bytes
  let h := if body.2.isEmpty then body.1 else body.1 ^^^ mmixK (murmurTailK body.2)
  fmix32 (h ^^^ m32 bytes.length)

/-- UTF-8 encoding of one character (standard 1–4 byte encoding). -/
def encodeChar (c : Char) : List Nat :=
  let n := c.toNat
  if n < 128 then [n]
  else if n < 2048 then [192 + n / 64, 128 + n % 64]
  else if n < 65536 then [224 + n / 4096, 128 + (n / 64) % 64, 128 + n % 64]
  else [240 + n / 262144, 128 + (n / 4096) % 64, 128 + (n / 64) % 64, 128 + n % 64]

/-- UTF-8 bytes of a string, as `mmh3` hashes them. -/
def strBytes (s : String) : List Nat := (s.data.map encodeChar).flatten

/-- `murmur_hash_and_flip` of `material_importer.py`:
`mmh3.hash(string, signed=False)`, i.e. MurmurHash3 x86-32 with seed 0. -/
def murmur_hash_and_flip (s : String) : Nat := murmur3_32 (strBytes s) 0

/-! ## String table decoder (`read_string_table`, material_importer.py 15–32). -/

/-- `bytes.decode('ascii', errors='ignore')`: bytes ≥ 128 are dropped, the
rest become their ASCII characters. -/
def decodeAscii (bs : List Nat) : String :=
  String.mk ((bs.filter (fun b => b < 128)).map (fun b => Char.ofNat b))

/-- The inner byte loop of `read_string_table`: read single bytes until a NUL
byte or EOF.  Returns the bytes before the terminator and the number of bytes
consumed (the NUL, when present, is consumed but not returned). -/
def readCStringL : List Nat → List Nat × Nat
  | [] => ([], 0)
  | c :: rest =>
      if c = 0 then ([], 1)
      else
        let r := readCStringL rest
        (c :: r.1, r.2 + 1)

/-- The outer loop of `read_string_table` (`while file.tell() < data_end`),
written with explicit fuel.  Each iteration with a non-empty remaining buffer
consumes at least one byte, so `dataEnd - pos` iterations always suffice and
the fuel-exhaustion branch is unreachable from `read_string_table` below.
When the buffer is exhausted before `dataEnd` the Python loop never advances
the file position again and spins forever appending empty strings; that
divergence is modelled as `none`. -/
def rst_go (data : List Nat) (dataEnd : Nat) : Nat → Nat → Option (List (String × Nat) × Nat)
  | 0, _ => none
  | fuel + 1, pos =>
      if pos < dataEnd then
        if (data.drop pos).isEmpty then none
        else
          let r := readCStringL (data.drop pos)
          let s := decodeAscii r.1
          match rst_go data dataEnd fuel (pos + r.2) with
          | some (rest, q) => some ((s, murmur_hash_and_flip s) :: rest, q)
          | none => none
      else some ([], pos)

/-- `read_string_table(file, length)` with the cursor at `pos` and
`data_end = pos + length` supplied as `dataEnd`; returns the `(string, hash)`
entries in stream order together with the final cursor position. -/
def read_string_table (data : List Nat) (pos dataEnd : Nat) : Option (List (String × Nat) × Nat) :=
  rst_go data dataEnd (dataEnd - pos + 1) pos

/-! ## Tag header (material_importer.py 392–415, light_importer.py 47–55). -/

/-- The weighted count sum of `light_importer.py` lines 49–54: multipliers
`[24,16,32,20,16,8,1,1,0,0,0,0,0]` applied to the 13 header counts. -/
def total_skip (counts : List Nat) : Nat :=
  counts.getD 0 0 * 24 + counts.getD 1 0 * 16 + counts.getD 2 0 * 32 +
  counts.getD 3 0 * 20 + counts.getD 4 0 * 16 + counts.getD 5 0 * 8 +
  counts.getD 6 0 * 1 + counts.getD 7 0 * 1 +
  counts.getD 8 0 * 0 + counts.getD 9 0 * 0 + counts.getD 10 0 * 0 +
  counts.getD 11 0 * 0 + counts.getD 12 0 * 0

/-- The skip of `material_importer.py` lines 394–401: only the first six
counts are weighted (`24,16,32,20,16,8`). -/
def skip6 (counts : List Nat) : Nat :=
  counts.getD 0 0 * 24 + counts.getD 1 0 * 16 + counts.getD 2 0 * 32 +
  counts.getD 3 0 * 20 + counts.getD 4 0 * 16 + counts.getD 5 0 * 8

/-- material_importer.py 392–404: seek to 28, read 13 u32 counts (cursor now
at 80), `string_table_offset = f.tell() + skip_bytes`,
`string_table_length = u32_values[6]`. -/
def string_table_region (data : List Nat) : Option (Nat × Nat) :=
  (readU32list data 28 13).map (fun counts => (80 + skip6 counts, counts.getD 6 0))

/-- light_importer.py 47–55: seek to 28, read 13 counts (cursor at 80), then
`file.seek(total_skip, 1)`.  Returns the resulting cursor position. -/
def light_header_pos (data : List Nat) : Option Nat :=
  (readU32list data 28 13).map (fun counts => 80 + total_skip counts)

/-- material_importer.py 392–415: header counts, string table, then
`f.seek(u32_values[7], 1)` and `f.seek((u32_values[0] - 1) * 52, 1)`.
Returns the string table and the cursor position at the secondary header. -/
def material_sections (data : List Nat) : Option (List (String × Nat) × Nat) := do
  let counts ← readU32list data 28 13
  let stOff := 80 + skip6 counts
  let st ← read_string_table data stOff (stOff + counts.getD 6 0)
  let p2 ← seekRel st.2 (counts.getD 7 0 : Int)
  let p3 ← seekRel p2 (((counts.getD 0 0 : Int) - 1) * 52)
  pure (st.1, p3)

/-! ## ID mapping table and material block decoder
(material_importer.py 34–58, 249–420). -/

/-- One record of the external ID mapping resource (`load_id_mapping`):
non-bitmap lines carry no curve or normalized flag. -/
structure IdEntry where
  path : String
  curve : Option String
  normalized : Option Nat
deriving DecidableEq, Repr

/-- `id_mapping.get(key)` over the loaded dictionary, modelled as an
association list with first-match lookup. -/
def lookupId : List (Nat × IdEntry) → Nat → Option IdEntry
  | [], _ => none
  | (k, e) :: rest, key => if k = key then some e else lookupId rest key

/-- Python `str.split(sep)` for a one-character separator: splits at every
occurrence, keeping empty pieces, and always returns a non-empty list. -/
def splitOnChar (sep : Char) : List Char → List (List Char)
  | [] => [[]]
  | c :: rest =>
      let r := splitOnChar sep rest
      if c = sep then [] :: r
      else
        match r with
        | h :: t => (c :: h) :: t
        | [] => [[c]]

/-- Python `str.endswith(suffix)`. -/
def strEndsWith (s suffix : String) : Bool :=
  s.data.drop (s.data.length - suffix.data.length) == suffix.data

/-- One pass of Python `str.replace(old, new)`: replace non-overlapping
occurrences left to right.  `fuel` bounds the recursion; every step consumes
at least one character of the remaining input (the decoder only uses a
non-empty `old`, and the `isEmpty` guard keeps the empty-`old` case from
consuming the fuel without progress), so `s.length` fuel is always enough. -/
def replaceFuel (old new : List Char) : Nat → List Char → List Char
  | 0, s => s
  | _ + 1, [] => []
  | fuel + 1, c :: rest =>
      if old.isPrefixOf (c :: rest) && !old.isEmpty then
        new ++ replaceFuel old new fuel ((c :: rest).drop old.length)
      else c :: replaceFuel old new fuel rest

/-- Python `str.replace(old, new)`. -/
def strReplace (s old new : String) : String :=
  String.mk (replaceFuel old.data new.data s.data.length s.data)

/-- `extract_filename_from_path`: `file_path.split('\\')[-1].split('.')[0]`. -/
def extract_filename_from_path (p : String) : String :=
  String.mk ((splitOnChar '.' ((splitOnChar '\\' p.data).getLastD [])).headD [])

/-- The typed parameter payloads of `process_block`.  Float fields are raw
32-bit patterns. -/
inductive ParamValue where
  | bitmap (texture_path : String) (curve : Option String) (uv_scale : Nat × Nat)
      (normalized : Option Nat)
  | color (rgba : Nat × Nat × Nat × Nat) (normalized : Option Nat)
  | real (value : Nat)
  | boolean (value : Bool)
  | int (value : Nat)
deriving DecidableEq, Repr

/-- The linear scan of `process_block` lines 256–260: first string-table entry
whose hash equals the target. -/
def findMatch : List (String × Nat) → Nat → Option String
  | [], _ => none
  | (s, hh) :: rest, target => if hh = target then some s else findMatch rest target

/-- The per-type payload of `process_block` (lines 274–342), reading from the
record that starts at `pos` (so the payload begins at `pos + 8`).  Seeks are
folded into absolute offsets from `pos`:

* type 0 (bitmap): index at `pos+8`, skip 8, tag type at `pos+20`, tag id at
  `pos+24`, skip 20, 4 floats at `pos+48`, uv scale at `pos+64`, 9 floats at
  `pos+72`, skip 124 — next record at `pos+232`;
* type 4 (color): index at `pos+8`, skip 36, ARGB at `pos+48`, skip 168;
* type 1 (real): index at `pos+8`, skip 52, value at `pos+64`, skip 164;
* type 3 (boolean) / type 2 (int): index at `pos+8`, skip 68, value at
  `pos+80`, skip 148;
* any other type matches no branch: nothing is read or skipped beyond the
  8-byte name and type, and the block function returns normally.

Returns the `parameters` dict of the block (keyed by `matching_string`, which
may be `None`) and the cursor position after the block. -/
def block_payload (data : List Nat) (pos : Nat) (mapping : List (Nat × IdEntry))
    (previous_id : Nat) (matching_string : Option String) (base_texture_path : String)
    (ex : String → Bool) (parameter_type : Nat) :
    Option (List (Option String × ParamValue) × Nat) :=
  if parameter_type = 0 then do
    let _parameter_index ← readU32v data (pos + 8)
    let _bitmap_tag_type ← readU32v data (pos + 20)
    let bitmap_tag_id ← readU32v data (pos + 24)
    let _ ← readChk data (pos + 48) 16
    let uv0 ← readU32v data (pos + 64)
    let uv1 ← readU32v data (pos + 68)
    let _ ← readChk data (pos + 72) 36
    let bitmap_info := (lookupId mapping bitmap_tag_id).getD
      ⟨"Unknown Filepath", some "Unknown Curve", none⟩
    let ps : List (Option String × ParamValue) :=
      if bitmap_info.path = "Unknown Filepath" ∨ ¬ (strEndsWith bitmap_info.path ".bitmap") then
        []
      else
        let full_texture_path :=
          base_texture_path ++ "\\" ++ (strReplace bitmap_info.path ".bitmap" ".png")
        if ex full_texture_path then
          [(matching_string,
            ParamValue.bitmap full_texture_path bitmap_info.curve (uv0, uv1)
              bitmap_info.normalized)]
        else []
    pure (ps, pos + 232)
  else if parameter_type = 4 then do
    let _parameter_index ← readU32v data (pos + 8)
    let a ← readU32v data (pos + 48)
    let r ← readU32v data (pos + 52)
    let g ← readU32v data (pos + 56)
    let b ← readU32v data (pos + 60)
    let nrm := match lookupId mapping previous_id with
      | some e => e.normalized
      | none => some 1
    pure ([(matching_string, ParamValue.color (r, g, b, a) nrm)], pos + 232)
  else if parameter_type = 1 then do
    let _parameter_index ← readU32v data (pos + 8)
    let real_value ← readU32v data (pos + 64)
    pure ([(matching_string, ParamValue.real real_value)], pos + 232)
  else if parameter_type = 3 then do
    let _parameter_index ← readU32v data (pos + 8)
    let boolean_value ← readU32v data (pos + 80)
    pure ([(matching_string, ParamValue.boolean (boolean_value ≠ 0))], pos + 232)
  else if parameter_type = 2 then do
    let _parameter_index ← readU32v data (pos + 8)
    let int_value ← readU32v data (pos + 80)
    pure ([(matching_string, ParamValue.int int_value)], pos + 232)
  else
    pure ([], pos + 8)

/-- `process_block` (lines 249–344): read the hashed name at `pos`, scan the
string table, read the type at `pos+4`, then the per-type payload. -/
def process_block (data : List Nat) (pos : Nat) (mapping : List (Nat × IdEntry))
    (previous_id : Nat) (string_table : List (String × Nat)) (base_texture_path : String)
    (ex : String → Bool) :
    Option ((Option String × List (Option String × ParamValue)) × Nat) := do
  let parameter_name ← readU32v data pos
  let matching_string := findMatch string_table parameter_name
  let parameter_type ← readU32v data (pos + 4)
  let r ← block_payload data pos mapping previous_id matching_string base_texture_path ex
    parameter_type
  pure ((matching_string, r.1), r.2)

/-- Python dict insertion: overwrite in place when the key exists, else append. -/
def dictUpdate (acc : List (String × ParamValue)) (kv : String × ParamValue) :
    List (String × ParamValue) :=
  if acc.any (fun p => p.1 == kv.1) then
    acc.map (fun p => if p.1 == kv.1 then kv else p)
  else acc ++ [kv]

/-- `all_parameters.update(parameters)`.  Under the `if matching_string:`
guard every key of `parameters` is the guard's non-empty `matching_string`, so
the `none` key never reaches this merge. -/
def mergeParams (acc : List (String × ParamValue)) :
    List (Option String × ParamValue) → List (String × ParamValue)
  | [] => acc
  | (some s, v) :: rest => mergeParams (dictUpdate acc (s, v)) rest
  | (none, _) :: rest => mergeParams acc rest

/-- Python truthiness of `matching_string`: `None` and `""` are falsy. -/
def truthy : Option String → Bool
  | none => false
  | some s => if s = "" then false else true

/-- The block loop of `process_secondary_header` (lines 376–379):
`matching_string, parameters = process_block(...)`, then
`if matching_string: all_parameters.update(parameters)`.  Returns the
accumulated parameters and the final cursor position. -/
def process_blocks (data : List Nat) (mapping : List (Nat × IdEntry)) (previous_id : Nat)
    (string_table : List (String × Nat)) (base_texture_path : String) (ex : String → Bool) :
    Nat → Nat → List (String × ParamValue) → Option (List (String × ParamValue) × Nat)
  | 0, pos, acc => some (acc, pos)
  | n + 1, pos, acc => do
      let r ← process_block data pos mapping previous_id string_table base_texture_path ex
      let acc' := if truthy r.1.1 then mergeParams acc r.1.2 else acc
      process_blocks data mapping previous_id string_table base_texture_path ex n r.2 acc'

/-- The decoded material: shader display name and the accumulated
`all_parameters` mapping, in insertion order. -/
structure MaterialDescriptor where
  shader_name : String
  parameters : List (String × ParamValue)
deriving DecidableEq, Repr

/-- `process_secondary_header` (lines 346–382) up to the Blender hand-off:
skip 28, read `shadertagID` at `pos+28`, resolve it; skip 32, read the
parameter count at `pos+64`; skip 60; blocks start at `pos+128`.

When `shadertagID` is absent from the mapping the Python code only prints a
message, leaving the local `filename` unassigned; the later unconditional
`shader_name = filename` then raises `UnboundLocalError`, aborting the whole
file's decode — modelled as `none`. -/
def process_secondary_header (data : List Nat) (pos : Nat) (mapping : List (Nat × IdEntry))
    (string_table : List (String × Nat)) (base_texture_path : String) (ex : String → Bool) :
    Option MaterialDescriptor := do
  let shadertagID ← readU32v data (pos + 28)
  let filename ← (lookupId mapping shadertagID).map
    (fun e => extract_filename_from_path e.path)
  let materialparameterscount ← readU32v data (pos + 64)
  let r ← process_blocks data mapping shadertagID string_table base_texture_path ex
    materialparameterscount (pos + 128) []
  pure ⟨filename, r.1⟩

/-- `process_binary_file` (lines 384–418) without the Blender side effects:
header skips, string table, then the secondary header.  `ex` is the
asset-resolver capability standing for `os.path.exists`. -/
def process_binary_file (data : List Nat) (mapping : List (Nat × IdEntry))
    (base_texture_path : String) (ex : String → Bool) : Option MaterialDescriptor := do
  let st ← material_sections data
  process_secondary_header data st.2 mapping st.1 base_texture_path ex

/-! ## Light block decoder (light_importer.py 38–104). -/

/-- The light kinds produced by the importer. -/
inductive LightKind where
  | Point
  | Spot
  | Area
  | Sun
deriving DecidableEq, Repr

/-- `light_type_mapping.get(light_type_value, "POINT")` (lines 63–77):
`{0: POINT, 1: SPOT, 2: POINT, 3: AREA, 4: SUN}`, default `POINT`. -/
def light_type_mapping (v : Nat) : LightKind :=
  if v = 0 then LightKind.Point
  else if v = 1 then LightKind.Spot
  else if v = 2 then LightKind.Point
  else if v = 3 then LightKind.Area
  else if v = 4 then LightKind.Sun
  else LightKind.Point

/-- One decoded light, as assembled by the `create_light` call (lines 90–99):
`area_size` is passed exactly when the kind is `AREA`, `spot_cone` exactly
when the kind is `SPOT`.  Float fields are raw 32-bit patterns. -/
structure LightDescriptor where
  kind : LightKind
  position : Nat × Nat × Nat
  orientation : Nat × Nat × Nat × Nat
  color : Nat × Nat × Nat
  intensity : Nat
  area_extent : Option (Nat × Nat)
  spot_cone : Option (Nat × Nat)
deriving DecidableEq, Repr

/-- One block of the light file (lines 72–99), starting at `pos`: composer id
at `pos`, position at `pos+4`, quaternion at `pos+16`, 4 padding bytes, kind
at `pos+36`, RGB+intensity at `pos+40`, 124 padding bytes, area extents at
`pos+180`, spot cone at `pos+192`, 296 trailing padding bytes — the next
block starts at `pos+496`. -/
def read_light_block (data : List Nat) (pos : Nat) : Option LightDescriptor := do
  let _composer_id ← readU32v data pos
  let xyz ← readU32x3 data (pos + 4)
  let ijkw ← readU32x4 data (pos + 16)
  let light_type_value ← readU32v data (pos + 36)
  let kind := light_type_mapping light_type_value
  let rgbi ← readU32x4 data (pos + 40)
  let area ← readU32x3 data (pos + 180)
  let cone ← readU32x2 data (pos + 192)
  pure { kind := kind
         position := xyz
         orientation := ijkw
         color := (rgbi.1, rgbi.2.1, rgbi.2.2.1)
         intensity := rgbi.2.2.2
         area_extent := if kind = LightKind.Area then some (area.1, area.2.1) else none
         spot_cone := if kind = LightKind.Spot then some cone else none }

/-- The block loop of `read_binary_file_and_create_lights`. -/
def decode_light_blocks (data : List Nat) : Nat → Nat → Option (List LightDescriptor)
  | 0, _ => some []
  | n + 1, pos => do
      let d ← read_light_block data pos
      let rest ← decode_light_blocks data n (pos + 496)
      pure (d :: rest)

/-- `read_binary_file_and_create_lights` (lines 45–99) for a single file,
without the Blender side effects: header skip, `file.seek(32, 1)`, block
count, `file.seek(12, 1)`, then the blocks. -/
def decode_lights (data : List Nat) : Option (List LightDescriptor) := do
  let counts ← readU32list data 28 13
  let p := 80 + total_skip counts
  let block_count ← readU32v data (p + 32)
  decode_light_blocks data block_count (p + 48)

/-! ## Concrete test inputs. -/

/-- An asset resolver that reports no path as existing. -/
def noAsset : String → Bool := fun _ => false

/-- A 240-byte material file: counts `[1,0,…,0]` (so the string table is empty
and sits at offset 104, and the secondary header starts at 104), shader tag id
5 at offset 132, parameter count 1 at offset 168, and a single parameter
record at offset 232 whose `parameter_type` (offset 236) is the unrecognized
value 99. -/
def mat99File : List Nat :=
  List.replicate 28 0 ++ [1, 0, 0, 0] ++ List.replicate 100 0 ++ [5, 0, 0, 0] ++
  List.replicate 32 0 ++ [1, 0, 0, 0] ++ List.replicate 64 0 ++ [99, 0, 0, 0]

/-- An ID mapping resolving tag id 5 (the shader of `mat99File`). -/
def mat99Map : List (Nat × IdEntry) := [(5, ⟨"x\\y.material", none, none⟩)]

/-- An 80-byte file whose 13 header counts are all zero except
`counts[6] = 4` (the string-table length). -/
def hdr6File : List Nat := List.replicate 52 0 ++ [4, 0, 0, 0] ++ List.replicate 24 0

/-- An 80-byte file whose 13 header counts are all zero; in particular
`counts[0] = 0`, so the secondary-header seek is `(0 - 1) * 52 = -52`. -/
def zeroHdrFile : List Nat := List.replicate 80 0

/-- A 328-byte light file: all header counts zero, block count 1 at offset
112, and one block at offset 128 whose light-kind code (offset 164) is 3
(`AREA`); every float field is zero. -/
def areaLightFile : List Nat :=
  List.replicate 112 0 ++ [1, 0, 0, 0] ++ List.replicate 48 0 ++ [3, 0, 0, 0] ++
  List.replicate 160 0

/-- The single light decoded from `areaLightFile`. -/
def areaLightDesc : LightDescriptor :=
  ⟨LightKind.Area, (0, 0, 0), (0, 0, 0, 0), (0, 0, 0), 0, some (0, 0), none⟩

/-- A 108-byte buffer holding one all-zero parameter record of type 0
(bitmap): hashed name 0, `parameter_type` 0, `bitmap_tag_id` 0. -/
def bitmapRecBuf : List Nat := List.replicate 108 0

/-- A 68-byte buffer holding one parameter record of type 1 (real): hashed
name 0, `parameter_type` 1 at offset 4, value at offset 64. -/
def realRecBuf : List Nat := List.replicate 4 0 ++ [1, 0, 0, 0] ++ List.replicate 60 0

/-- A string table whose single entry has hash 123 — which the hashed name 0
of `realRecBuf` does not match. -/
def oneEntryTable : List (String × Nat) := [("x", 123)]

/-- An 84-byte buffer holding one parameter record of type 2 (int): hashed
name 0, `parameter_type` 2 at offset 4, value at offset 80. -/
def intRecBuf : List Nat := List.replicate 4 0 ++ [2, 0, 0, 0] ++ List.replicate 76 0

/-- The five bytes `"a\x00bb\x00"`: two NUL-terminated strings. -/
def twoStrBuf : List Nat := [97, 0, 98, 98, 0]

/-! ## Helper lemmas. -/

/-- `process_block` succeeds exactly when the name read, the type read and the
payload all succeed, and then returns the string-table match, the payload
parameters and the payload's final position. -/
theorem process_block_eq_some
    {data : List Nat} {pos : Nat} {mapping : List (Nat × IdEntry)} {prev : Nat}
    {tbl : List (String × Nat)} {base : String} {ex : String → Bool}
    {ms : Option String} {ps : List (Option String × ParamValue)} {pos' : Nat} :
    process_block data pos mapping prev tbl base ex = some ((ms, ps), pos') ↔
    ∃ nm pt r, readU32v data pos = some nm ∧ readU32v data (pos + 4) = some pt ∧
      block_payload data pos mapping prev (findMatch tbl nm) base ex pt = some r ∧
      ms = findMatch tbl nm ∧ ps = r.1 ∧ pos' = r.2 := by
  simp only [process_block, Option.bind_eq_bind, Option.bind_eq_some, Option.pure_def,
    Option.some.injEq, Prod.mk.injEq]
  constructor
  · rintro ⟨nm, hnm, pt, hpt, r, hr, ⟨h1, h2⟩, h3⟩
    exact ⟨nm, pt, r, hnm, hpt, hr, h1.symm, h2.symm, h3.symm⟩
  · rintro ⟨nm, pt, r, hnm, hpt, hr, h1, h2, h3⟩
    exact ⟨nm, hnm, pt, hpt, r, hr, ⟨h1.symm, h2.symm⟩, h3.symm⟩

/-- A successful payload of a recognized parameter type ends exactly 232 bytes
after the record start. -/
theorem block_payload_advance
    {data : List Nat} {pos : Nat} {mapping : List (Nat × IdEntry)} {prev : Nat}
    {ms : Option String} {base : String} {ex : String → Bool} {pt : Nat}
    {r : List (Option String × ParamValue) × Nat}
    (h : block_payload data pos mapping prev ms base ex pt = some r) (h5 : pt < 5) :
    r.2 = pos + 232 := by
  unfold block_payload at h
  split_ifs at h <;>
    simp only [Option.bind_eq_bind, Option.bind_eq_some, Option.pure_def,
      Option.some.injEq] at h <;>
    first
      | (obtain ⟨_, -, _, -, _, -, _, -, _, -, _, -, _, -, hfin⟩ := h; subst hfin; rfl)
      | (obtain ⟨_, -, _, -, _, -, _, -, _, -, hfin⟩ := h; subst hfin; rfl)
      | (obtain ⟨_, -, _, -, hfin⟩ := h; subst hfin; rfl)
      | omega

/-- When no string-table entry carries the sought hash, the linear scan comes
back empty. -/
theorem findMatch_eq_none {tbl : List (String × Nat)} {h : Nat}
    (hm : ∀ e ∈ tbl, e.2 ≠ h) : findMatch tbl h = none := by
  induction tbl with
  | nil => rfl
  | cons e rest ih =>
    obtain ⟨s, hh⟩ := e
    simp only [findMatch]
    rw [if_neg]
    · exact ih (fun e he => hm e (List.mem_cons_of_mem _ he))
    · exact hm (s, hh) (List.mem_cons_self _ _)

/-- A u32 read succeeds whenever its four bytes are inside the buffer. -/
theorem readU32v_some {data : List Nat} {pos : Nat} (h : pos + 4 ≤ data.length) :
    ∃ v, readU32v data pos = some v := by
  unfold readU32v
  have h0 : pos < data.length := by omega
  have h1 : pos + 1 < data.length := by omega
  have h2 : pos + 2 < data.length := by omega
  have h3 : pos + 3 < data.length := by omega
  simp [List.getElem?_eq_getElem, h0, h1, h2, h3]

/-- A checked read succeeds whenever the requested bytes are inside the
buffer. -/
theorem readChk_some {data : List Nat} {pos n : Nat} (h : pos + n ≤ data.length) :
    readChk data pos n = some () := by
  simp [readChk, h]

/-- The string-table loop never moves the cursor backwards. -/
theorem rst_go_ge {data : List Nat} {dataEnd : Nat} :
    ∀ {fuel pos tbl p}, rst_go data dataEnd fuel pos = some (tbl, p) → pos ≤ p := by
  intro fuel
  induction fuel with
  | zero => intro pos tbl p h; simp [rst_go] at h
  | succ n ih =>
    intro pos tbl p h
    rw [rst_go] at h
    split at h
    · split at h
      · exact absurd h (by simp)
      · dsimp only at h
        split at h
        · rename_i rest q heq
          have h2 := Option.some.inj h
          have hp : q = p := congrArg Prod.snd h2
          have := ih heq
          omega
        · exact absurd h (by simp)
    · have h2 := Option.some.inj h
      have hp : pos = p := congrArg Prod.snd h2
      omega

/-- The string-table decoder never moves the cursor backwards. -/
theorem read_string_table_ge {data : List Nat} {pos dataEnd : Nat}
    {tbl : List (String × Nat)} {p : Nat}
    (h : read_string_table data pos dataEnd = some (tbl, p)) : pos ≤ p :=
  rst_go_ge h

/-- Every decoded light block carries its optional fields exactly as dictated
by its kind. -/
theorem read_light_block_inv {data : List Nat} {pos : Nat} {d : LightDescriptor}
    (h : read_light_block data pos = some d) :
    (d.area_extent.isSome ↔ d.kind = LightKind.Area) ∧
    (d.spot_cone.isSome ↔ d.kind = LightKind.Spot) := by
  simp only [read_light_block, Option.bind_eq_bind, Option.bind_eq_some, Option.pure_def,
    Option.some.injEq] at h
  obtain ⟨-, -, xyz, -, ijkw, -, ltv, -, rgbi, -, area, -, cone, -, hd⟩ := h
  subst hd
  constructor
  · by_cases hk : light_type_mapping ltv = LightKind.Area <;> simp [hk]
  · by_cases hk : light_type_mapping ltv = LightKind.Spot <;> simp [hk]

/-- The block-loop version of `read_light_block_inv`. -/
theorem decode_light_blocks_inv {data : List Nat} :
    ∀ {n pos lights}, decode_light_blocks data n pos = some lights →
    ∀ d ∈ lights,
      (d.area_extent.isSome ↔ d.kind = LightKind.Area) ∧
      (d.spot_cone.isSome ↔ d.kind = LightKind.Spot) := by
  intro n
  induction n with
  | zero =>
    intro pos lights h d hd
    simp only [decode_light_blocks, Option.some.injEq] at h
    subst h
    simp at hd
  | succ m ih =>
    intro pos lights h d hd
    simp only [decode_light_blocks, Option.bind_eq_bind, Option.bind_eq_some, Option.pure_def,
      Option.some.injEq] at h
    obtain ⟨d0, hd0, rest, hrest, hl⟩ := h
    subst hl
    rcases List.mem_cons.mp hd with rfl | hmem
    · exact read_light_block_inv hd0
    · exact ih hrest d hmem

/-! ## Claims. -/

/-- Claim C1 (code bug).  The claim states that an unrecognized
`parameter_type` makes `decode_material` fail the whole file with
`UnknownParameterType` and return no partial result.  The code does the
opposite: `process_block` has no branch and no error for an unrecognized
type, consumes only the 8 name/type bytes and returns normally, so the file
decode continues desynchronized.  On `mat99File`, whose single parameter
record has `parameter_type` 99, the decode completes and returns a
`MaterialDescriptor` (shader `"y"`, no parameters). -/
theorem C1_unknown_type_not_fatal :
    process_binary_file mat99File mat99Map "base" noAsset =
      some ⟨"y", []⟩ := by
  set_option maxRecDepth 40000 in decide

/-- Claim C2, counterexample.  The claim says the cursor advances by the full
13-term weighted sum (multipliers `[24,16,32,20,16,8,1,1,0,0,0,0,0]`) to
reach the string table start.  On `hdr6File` (all counts zero except
`counts[6] = 4`) the material decoder places the string table at offset 80,
not at `28 + 52 + total_skip counts = 84`. -/
theorem C2_full_sum_counterexample :
    string_table_region hdr6File = some (80, 4) ∧
    string_table_region hdr6File ≠
      some (28 + 52 + total_skip [0, 0, 0, 0, 0, 0, 4, 0, 0, 0, 0, 0, 0], 4) := by
  constructor
  · decide
  · decide

/-- Claim C2, amended.  The header is read at byte 28 as 13 u32 counts and
`string_table_length = counts[6]`, but the material decoder reaches the
string table start by advancing only the first six weighted counts
(`skip6`); the light decoder advances by the full 13-term sum
(`total_skip`), which overshoots the string table start by exactly
`counts[6] + counts[7]`. -/
theorem C2_header_skip_amended :
    ∀ data counts, readU32list data 28 13 = some counts →
      string_table_region data = some (80 + skip6 counts, counts.getD 6 0) ∧
      light_header_pos data = some (80 + total_skip counts) ∧
      total_skip counts = skip6 counts + counts.getD 6 0 + counts.getD 7 0 := by
  intro data counts h
  refine ⟨?_, ?_, ?_⟩
  · simp [string_table_region, h]
  · simp [light_header_pos, h]
  · simp only [total_skip, skip6]
    omega

/-- Witness for the amended claim C2, at `hdr6File`. -/
theorem C2_header_skip_amended_witness :
    string_table_region hdr6File =
      some (80 + skip6 [0, 0, 0, 0, 0, 0, 4, 0, 0, 0, 0, 0, 0],
        [0, 0, 0, 0, 0, 0, 4, 0, 0, 0, 0, 0, 0].getD 6 0) ∧
    light_header_pos hdr6File =
      some (80 + total_skip [0, 0, 0, 0, 0, 0, 4, 0, 0, 0, 0, 0, 0]) ∧
    total_skip [0, 0, 0, 0, 0, 0, 4, 0, 0, 0, 0, 0, 0] =
      skip6 [0, 0, 0, 0, 0, 0, 4, 0, 0, 0, 0, 0, 0] +
      [0, 0, 0, 0, 0, 0, 4, 0, 0, 0, 0, 0, 0].getD 6 0 +
      [0, 0, 0, 0, 0, 0, 4, 0, 0, 0, 0, 0, 0].getD 7 0 :=
  C2_header_skip_amended hdr6File [0, 0, 0, 0, 0, 0, 4, 0, 0, 0, 0, 0, 0] (by decide)

/-- Claim C3 (confirmed).  For a bitmap (type 0) parameter record: when the
`bitmap_tag_id` is absent from the mapping, or the resolved path does not end
in `.bitmap`, or the asset resolver reports the rewritten `.png` path as
non-existent, the record contributes no entry to the parameters (so the
parameter's name is absent from the output), and a record whose reads are in
bounds never raises; consequently every retained bitmap entry's texture path
is reported existing by the resolver. -/
theorem C3_bitmap_drop :
    (∀ data pos mapping prev tbl base ex ms ps pos',
       process_block data pos mapping prev tbl base ex = some ((ms, ps), pos') →
       readU32v data (pos + 4) = some 0 →
       ∀ bid, readU32v data (pos + 24) = some bid →
         ((lookupId mapping bid = none → ps = []) ∧
          (∀ e, lookupId mapping bid = some e →
             strEndsWith e.path ".bitmap" = false → ps = []) ∧
          (∀ e, lookupId mapping bid = some e →
             ex (base ++ "\\" ++ strReplace e.path ".bitmap" ".png") = false → ps = []) ∧
          (∀ n p c uv nm, (n, ParamValue.bitmap p c uv nm) ∈ ps → ex p = true))) ∧
    (∀ data pos mapping prev tbl base ex,
       readU32v data (pos + 4) = some 0 → pos + 108 ≤ data.length →
       (process_block data pos mapping prev tbl base ex).isSome) := by
  constructor
  · rintro data pos mapping prev tbl base ex ms ps pos' h hpt bid hbid
    rw [process_block_eq_some] at h
    obtain ⟨nm, pt, r, hnm, hpt', hbp, -, hps, -⟩ := h
    obtain rfl : pt = 0 := by rw [hpt] at hpt'; exact (Option.some.inj hpt').symm
    rw [block_payload] at hbp
    rw [if_pos rfl] at hbp
    simp only [Option.bind_eq_bind, Option.bind_eq_some, Option.pure_def,
      Option.some.injEq] at hbp
    obtain ⟨idx, hidx, tt, htt, bid', hbid', u, hu, uv0, huv0, uv1, huv1, u2, hu2, hr⟩ := hbp
    obtain rfl : bid' = bid := by rw [hbid] at hbid'; exact (Option.some.inj hbid').symm
    subst hps
    subst hr
    refine ⟨?_, ?_, ?_, ?_⟩
    · intro hnone
      simp [hnone]
    · intro e he hends
      simp [he, hends]
    · intro e he hex
      simp only [he, Option.getD_some]
      split_ifs with h1 h2
      · rfl
      · exact absurd h2 (by simp [hex])
      · rfl
    · intro n p c uv nm hmem
      simp only [] at hmem
      split_ifs at hmem with h1 h2
      · simp at hmem
      · simp only [List.mem_singleton, Prod.mk.injEq, ParamValue.bitmap.injEq] at hmem
        obtain ⟨-, hp, -, -, -⟩ := hmem
        rw [hp]
        exact h2
      · simp at hmem
  · intro data pos mapping prev tbl base ex hpt hlen
    obtain ⟨v0, h0⟩ := readU32v_some (show pos + 4 ≤ data.length by omega)
    obtain ⟨v2, hv2⟩ := readU32v_some (show pos + 8 + 4 ≤ data.length by omega)
    obtain ⟨v3, hv3⟩ := readU32v_some (show pos + 20 + 4 ≤ data.length by omega)
    obtain ⟨v4, hv4⟩ := readU32v_some (show pos + 24 + 4 ≤ data.length by omega)
    have hc1 : readChk data (pos + 48) 16 = some () :=
      readChk_some (show pos + 48 + 16 ≤ data.length by omega)
    obtain ⟨v5, hv5⟩ := readU32v_some (show pos + 64 + 4 ≤ data.length by omega)
    obtain ⟨v6, hv6⟩ := readU32v_some (show pos + 68 + 4 ≤ data.length by omega)
    have hc2 : readChk data (pos + 72) 36 = some () :=
      readChk_some (show pos + 72 + 36 ≤ data.length by omega)
    simp [process_block, block_payload, h0, hpt, hv2, hv3, hv4, hc1, hv5, hv6, hc2]

/-- Witness for claim C3: the all-zero bitmap record of `bitmapRecBuf` with an
empty mapping is dropped (no entry) without an error. -/
theorem C3_bitmap_drop_witness :
    ([] : List (Option String × ParamValue)) = [] ∧
    (process_block bitmapRecBuf 0 [] 0 [] "b" noAsset).isSome :=
  ⟨(C3_bitmap_drop.1 bitmapRecBuf 0 [] 0 [] "b" noAsset none [] 232 (by decide) (by decide)
      0 (by decide)).1 (by decide),
   C3_bitmap_drop.2 bitmapRecBuf 0 [] 0 [] "b" noAsset (by decide) (by decide)⟩

/-- Claim C4 (code bug).  The claim states that an unresolved
`shader_tag_id` is reported softly as the raw numeric ID and a
`MaterialDescriptor` is still produced.  In the code the unresolved branch
only prints a message and leaves the local `filename` unassigned, so the
unconditional `shader_name = filename` raises `UnboundLocalError` and the
whole file's decode aborts: `mat99File` (shader tag 5) with an empty mapping
yields no descriptor at all. -/
theorem C4_unresolved_shader_aborts :
    process_binary_file mat99File [] "base" noAsset = none := by
  set_option maxRecDepth 40000 in decide

/-- Claim C5 (confirmed).  A parameter record whose u32 hashed name matches
no string-table entry is skipped: the match is `none`, the accumulated
parameters are unchanged, and the loop simply continues with the remaining
records at the position after the record. -/
theorem C5_unmatched_param_skipped :
    ∀ data pos mapping prev tbl base ex nm ms ps pos',
      readU32v data pos = some nm →
      (∀ e ∈ tbl, e.2 ≠ nm) →
      process_block data pos mapping prev tbl base ex = some ((ms, ps), pos') →
      ms = none ∧
      ∀ n acc, process_blocks data mapping prev tbl base ex (n + 1) pos acc =
               process_blocks data mapping prev tbl base ex n pos' acc := by
  intro data pos mapping prev tbl base ex nm ms ps pos' hnm hno h
  have hmatch : findMatch tbl nm = none := findMatch_eq_none hno
  have hms : ms = none := by
    rw [process_block_eq_some] at h
    obtain ⟨nm', pt, r, hnm', -, -, hms', -, -⟩ := h
    obtain rfl : nm' = nm := by rw [hnm] at hnm'; exact (Option.some.inj hnm').symm
    rw [hms', hmatch]
  subst hms
  refine ⟨rfl, ?_⟩
  intro n acc
  simp only [process_blocks, Option.bind_eq_bind, h, Option.some_bind, truthy,
    Bool.false_eq_true, if_false]

/-- Witness for claim C5: the type-1 record of `realRecBuf`, whose hashed
name 0 matches no entry of `oneEntryTable`. -/
theorem C5_unmatched_param_skipped_witness :
    (none : Option String) = none ∧
    process_blocks realRecBuf [] 0 oneEntryTable "b" noAsset 1 0 [] =
      process_blocks realRecBuf [] 0 oneEntryTable "b" noAsset 0 232 [] := by
  have h := C5_unmatched_param_skipped realRecBuf 0 [] 0 oneEntryTable "b" noAsset 0 none
    [(none, ParamValue.real 0)] 232 (by decide) (by decide) (by decide)
  exact ⟨h.1, h.2 0 []⟩

/-- Claim C6 (confirmed).  The light-kind mapping is total: codes 0–4 map to
Point, Spot, Point, Area, Sun, and every other code maps to Point. -/
theorem C6_light_kind_total :
    (light_type_mapping 0 = LightKind.Point ∧ light_type_mapping 1 = LightKind.Spot ∧
     light_type_mapping 2 = LightKind.Point ∧ light_type_mapping 3 = LightKind.Area ∧
     light_type_mapping 4 = LightKind.Sun) ∧
    ∀ v : Nat, 4 < v → light_type_mapping v = LightKind.Point := by
  refine ⟨by decide, ?_⟩
  intro v hv
  unfold light_type_mapping
  rw [if_neg (by omega), if_neg (by omega), if_neg (by omega), if_neg (by omega),
    if_neg (by omega)]

/-- Witness for claim C6 at the unrecognized code 99. -/
theorem C6_light_kind_total_witness : light_type_mapping 99 = LightKind.Point :=
  C6_light_kind_total.2 99 (by decide)

/-- Claim C7 (confirmed).  Every decoded light has `area_extent` present iff
its kind is Area and `spot_cone` present iff its kind is Spot; and the
synthetic one-block Area file decodes to exactly one descriptor with
`area_extent` present and `spot_cone` absent. -/
theorem C7_area_spot_iff :
    (∀ data lights, decode_lights data = some lights →
       ∀ d ∈ lights, (d.area_extent.isSome ↔ d.kind = LightKind.Area) ∧
                     (d.spot_cone.isSome ↔ d.kind = LightKind.Spot)) ∧
    decode_lights areaLightFile = some [areaLightDesc] := by
  constructor
  · intro data lights h d hd
    simp only [decode_lights, Option.bind_eq_bind, Option.bind_eq_some] at h
    obtain ⟨counts, -, bc, -, hblocks⟩ := h
    exact decode_light_blocks_inv hblocks d hd
  · set_option maxRecDepth 40000 in decide

/-- Witness for claim C7 at the decoded Area light of `areaLightFile`. -/
theorem C7_area_spot_iff_witness :
    (areaLightDesc.area_extent.isSome ↔ areaLightDesc.kind = LightKind.Area) ∧
    (areaLightDesc.spot_cone.isSome ↔ areaLightDesc.kind = LightKind.Spot) :=
  C7_area_spot_iff.1 areaLightFile [areaLightDesc] C7_area_spot_iff.2 areaLightDesc
    (by decide)

/-- Claim C8 (confirmed).  Decoding the 5-byte region `"a\x00bb\x00"` with
byte length 5 yields exactly the entries `"a"` (length 1) and `"bb"`
(length 2), in stream order, each paired with its MurmurHash3 value, with
the cursor advanced exactly 5 bytes (from 0 to 5). -/
theorem C8_string_table_two_entries :
    read_string_table twoStrBuf 0 5 =
      some ([("a", murmur_hash_and_flip "a"), ("bb", murmur_hash_and_flip "bb")], 5) ∧
    "a".length = 1 ∧ "bb".length = 2 :=
  ⟨by decide, by decide, by decide⟩

/-- Claim C9, counterexample.  The claim says the header skipper fails with
`MalformedHeader` when `counts[0] = 0` makes the secondary-header skip
negative.  On `zeroHdrFile` all 13 counts are 0, the skip is `-52`, and the
section location nevertheless succeeds, leaving the cursor at 28. -/
theorem C9_no_failure_counterexample :
    readU32list zeroHdrFile 28 13 = some [0, 0, 0, 0, 0, 0, 0, 0, 0, 0, 0, 0, 0] ∧
    material_sections zeroHdrFile = some ([], 28) := by
  exact ⟨by decide, set_option maxRecDepth 40000 in by decide⟩

/-- Claim C9, amended.  The header/seek phase never fails: once the 13
counts are read and the string table decoded, the two relative seeks always
succeed — the position after the string table is at least 80, so even the
`-52` seek of `counts[0] = 0` stays non-negative, and seeks past the end of
the input succeed as well (errors surface only at later reads). -/
theorem C9_seek_phase_total :
    ∀ data counts tbl p, readU32list data 28 13 = some counts →
      read_string_table data (80 + skip6 counts) (80 + skip6 counts + counts.getD 6 0) =
        some (tbl, p) →
      ∃ q, material_sections data = some (tbl, q) := by
  intro data counts tbl p hc hst
  have hge : 80 + skip6 counts ≤ p := read_string_table_ge hst
  have h1 : seekRel p (counts.getD 7 0 : Int) = some (p + counts.getD 7 0) := by
    rw [seekRel, if_neg (by omega)]
    simp only [Option.some.injEq]
    omega
  have h2 : ∃ q, seekRel (p + counts.getD 7 0) (((counts.getD 0 0 : Int) - 1) * 52) =
      some q := by
    have hneg : ¬ ((((p + counts.getD 7 0) : Nat) : Int) +
        ((counts.getD 0 0 : Int) - 1) * 52 < 0) := by
      omega
    exact ⟨_, by rw [seekRel, if_neg hneg]⟩
  obtain ⟨q, h2⟩ := h2
  refine ⟨q, ?_⟩
  simp only [material_sections, Option.bind_eq_bind, hc, Option.some_bind, hst, h1, h2,
    Option.pure_def]

/-- Witness for amended claim C9, at `zeroHdrFile`. -/
theorem C9_seek_phase_total_witness :
    ∃ q, material_sections zeroHdrFile = some ([], q) :=
  C9_seek_phase_total zeroHdrFile [0, 0, 0, 0, 0, 0, 0, 0, 0, 0, 0, 0, 0] [] 80
    (by decide) (by decide)

/-- Claim C10 (confirmed).  Every successfully processed parameter record
with a recognized type (0–4) leaves the cursor exactly 232 bytes past the
record start, whatever the type and whether or not the name matched or the
parameter was dropped. -/
theorem C10_record_stride_232 :
    ∀ data pos mapping prev tbl base ex r pos' pt,
      process_block data pos mapping prev tbl base ex = some (r, pos') →
      readU32v data (pos + 4) = some pt → pt < 5 →
      pos' = pos + 232 := by
  intro data pos mapping prev tbl base ex r pos' pt h hpt h5
  obtain ⟨ms, ps⟩ := r
  rw [process_block_eq_some] at h
  obtain ⟨nm, pt', rr, -, hpt', hbp, -, -, hpos⟩ := h
  obtain rfl : pt' = pt := by rw [hpt] at hpt'; exact (Option.some.inj hpt').symm
  rw [hpos]
  exact block_payload_advance hbp h5

/-- Witness for claim C10 at the type-2 record of `intRecBuf`. -/
theorem C10_record_stride_232_witness :
    (232 : Nat) = 0 + 232 ∧
    process_block intRecBuf 0 [] 0 [] "b" noAsset =
      some ((none, [(none, ParamValue.int 0)]), 232) := by
  have heval : process_block intRecBuf 0 [] 0 [] "b" noAsset =
      some ((none, [(none, ParamValue.int 0)]), 232) := by decide
  exact ⟨C10_record_stride_232 intRecBuf 0 [] 0 [] "b" noAsset
    (none, [(none, ParamValue.int 0)]) 232 2 heval (by decide) (by decide), heval⟩
